import Mathlib

/-!
Shallow embedding of the gapy Google Analytics client
(src/gapy/client.py).  Python strings are modelled as lists of
characters, the keyword-argument dictionary assembled by the query
client as an association list over the fixed set of nine parameter
names, and the external execute call as a record of the endpoint and
parameter mapping that would be sent, together with a trace of the
instrumentation-hook invocations.  Fallible construction paths return
Except values.
-/

/-- Python strings are modelled as lists of characters. -/
abbrev Str : Type := List Char

/-- Convert a Lean string literal into the character-list string model. -/
def chars (s : String) : Str := s.data

/-- A Python value as it occurs in the assembled keyword mapping: None, a
string, or an integer (used for max_results). -/
inductive PyVal : Type
  | none : PyVal
  | str : Str → PyVal
  | int : Int → PyVal
deriving DecidableEq

/-- An argument accepted by QueryClient._to_list (src/gapy/client.py lines
163-170): None, a scalar string, or a list of strings. -/
inductive PyArg : Type
  | none : PyArg
  | str : Str → PyArg
  | list : List Str → PyArg
deriving DecidableEq

/-- The nine keyword-parameter names assembled by QueryClient._get
(src/gapy/client.py lines 201-213). -/
inductive PKey : Type
  | ids | start_date | end_date | metrics | dimensions | filters | sort
  | max_results | segment
deriving DecidableEq

/-- The keyword mapping flowing into get_raw_response, modelled as an
association list keyed by the fixed parameter names. -/
abbrev Kw : Type := List (PKey × PyVal)

/-- A calendar date; _get formats the caller-supplied date objects with
strftime("%Y-%m-%d") (src/gapy/client.py lines 193-194). -/
structure Date where
  year : Nat
  month : Nat
  day : Nat
deriving DecidableEq

/-- Zero-pad a number to two digits, as strftime %m and %d do. -/
def pad2 (n : Nat) : Str := if n < 10 then '0' :: Nat.toDigits 10 n else Nat.toDigits 10 n

/-- strftime("%Y-%m-%d") on a date value (src/gapy/client.py lines 193-194). -/
def strftimeYMD (d : Date) : Str :=
  Nat.toDigits 10 d.year ++ '-' :: (pad2 d.month ++ '-' :: pad2 d.day)

/-- The module-level _prefixer function (src/gapy/client.py lines 245-266):
prefix value with the namespace token ns if it is not already, where sort
values may carry a leading minus sign for descending sort.  The source names
the second parameter after the namespace token itself. -/
def _prefixer (value : Str) (ns : Str) : Str :=
  if ns.isPrefixOf value then value
  else if ('-' :: ns).isPrefixOf value then value
  else if ['-'].isPrefixOf value then '-' :: (ns ++ value.drop 1)
  else ns ++ value

/-- _prefix_ga (src/gapy/client.py lines 239-240). -/
def _prefix_ga (value : Str) : Str := _prefixer value (chars "ga:")

/-- _prefix_mcf (src/gapy/client.py lines 242-243). -/
def _prefix_mcf (value : Str) : Str := _prefixer value (chars "mcf:")

/-- QueryClient._to_list (src/gapy/client.py lines 163-170): turn an
argument into a list. -/
def _to_list (value : PyArg) : List Str :=
  match value with
  | PyArg.none => []
  | PyArg.list l => l
  | PyArg.str s => [s]

/-- QueryClient._to_ga_param (src/gapy/client.py lines 172-174): comma-join
the ga-prefixed values. -/
def _to_ga_param (values : List Str) : Str :=
  List.intercalate (chars ",") (values.map _prefix_ga)

/-- QueryClient._to_mcf_param (src/gapy/client.py lines 176-178): comma-join
the mcf-prefixed values. -/
def _to_mcf_param (values : List Str) : Str :=
  List.intercalate (chars ",") (values.map _prefix_mcf)

/-- The Python expression `s or None` applied to a string: an empty string
is falsy and becomes None (src/gapy/client.py lines 207-209). -/
def strOrNone (s : Str) : PyVal := if s = [] then PyVal.none else PyVal.str s

/-- Python `del kwargs[key]` on the association-list model of the mapping. -/
def removeKey (kwargs : Kw) (key : PKey) : Kw :=
  kwargs.filter (fun p => !(p.1 = key))

/-- QueryClient._filter_empty (src/gapy/client.py lines 215-218): delete the
key when it is present and bound to None. -/
def _filter_empty (kwargs : Kw) (key : PKey) : Kw :=
  if kwargs.lookup key = some PyVal.none then removeKey kwargs key else kwargs

/-- The keys stripped by get_raw_response:
"dimensions filters sort max_results segment".split()
(src/gapy/client.py line 223). -/
def stripKeys : List PKey :=
  [PKey.dimensions, PKey.filters, PKey.sort, PKey.max_results, PKey.segment]

/-- The two data endpoints: service.data().ga() and service.data().mcf()
(src/gapy/client.py lines 225-228). -/
inductive Endpoint : Type
  | ga : Endpoint
  | mcf : Endpoint
deriving DecidableEq

/-- The observable outcome of get_raw_response: the arguments the
instrumentation hook was invoked with (in order), the values it returned
(discarded by the code), and the endpoint and parameter mapping handed to
the external execute call. -/
structure RawResult (α : Type) : Type where
  hookArgs : List Kw
  hookRet : List α
  endpoint : Endpoint
  params : Kw

/-- QueryClient.get_raw_response (src/gapy/client.py lines 220-229): call
the hook with the assembled kwargs, then remove the None-valued optional
keys, then execute against the ga or mcf endpoint. -/
def get_raw_response {α : Type} (ga_hook : Kw → α) (mcf : Bool) (kwargs : Kw) :
    RawResult α :=
  { hookArgs := [kwargs]
    hookRet := [ga_hook kwargs]
    endpoint := if mcf then Endpoint.mcf else Endpoint.ga
    params := stripKeys.foldl _filter_empty kwargs }

/-- QueryClient.__init__ (src/gapy/client.py lines 159-161): the hook
defaults to `lambda kwargs: None` when none is supplied. -/
def initHook (ga_hook : Option (Kw → PyVal)) : Kw → PyVal :=
  ga_hook.getD (fun _ => PyVal.none)

/-- QueryClient._get (src/gapy/client.py lines 186-213): normalize the
arguments, format the dates, assemble the keyword mapping (note that ids is
always built with _to_ga_param while metrics, dimensions, filters and sort
use the supplied prefixer), and hand it to get_raw_response.  The
QueryResponse wrapping done by _get_response lives in gapy/response.py and
is outside this embedding; the observable outcome is the executed call. -/
def _get {α : Type} (ga_hook : Kw → α) (prefixer : List Str → Str) (mcf : Bool)
    (ids : PyArg) (start_date end_date : Date) (metrics : PyArg)
    (dimensions : PyArg) (filters : PyArg) (max_results : PyVal)
    (sort : PyArg) (segment : PyVal) : RawResult α :=
  get_raw_response ga_hook mcf
    [(PKey.ids, PyVal.str (_to_ga_param (_to_list ids))),
     (PKey.start_date, PyVal.str (strftimeYMD start_date)),
     (PKey.end_date, PyVal.str (strftimeYMD end_date)),
     (PKey.metrics, PyVal.str (prefixer (_to_list metrics))),
     (PKey.dimensions, strOrNone (prefixer (_to_list dimensions))),
     (PKey.filters, strOrNone (prefixer (_to_list filters))),
     (PKey.sort, strOrNone (prefixer (_to_list sort))),
     (PKey.max_results, max_results),
     (PKey.segment, segment)]

/-- QueryClient.get_ga (src/gapy/client.py lines 183-184). -/
def get_ga {α : Type} (ga_hook : Kw → α) (ids : PyArg) (start_date end_date : Date)
    (metrics dimensions filters : PyArg) (max_results : PyVal)
    (sort : PyArg) (segment : PyVal) : RawResult α :=
  _get ga_hook _to_ga_param false ids start_date end_date metrics dimensions
    filters max_results sort segment

/-- QueryClient.get_mcf (src/gapy/client.py lines 180-181). -/
def get_mcf {α : Type} (ga_hook : Kw → α) (ids : PyArg) (start_date end_date : Date)
    (metrics dimensions filters : PyArg) (max_results : PyVal)
    (sort : PyArg) (segment : PyVal) : RawResult α :=
  _get ga_hook _to_mcf_param true ids start_date end_date metrics dimensions
    filters max_results sort segment

/-- The GapyError exception (gapy/error.py, a plain exception class carrying
its message). -/
structure GapyError : Type where
  msg : Str
deriving DecidableEq

/-- A management resource: a mapping carrying an "id" field plus further
fields (spec section 3: Management Resource). -/
structure MgmtItem : Type where
  id : Str
  fields : List (Str × Str)
deriving DecidableEq

/-- ManagementClient._item (src/gapy/client.py lines 150-154): linear scan
of the listing for the first item whose "id" equals id, raising
GapyError("Id not found") when none matches. -/
def _item (response : List MgmtItem) (id : Str) : Except GapyError MgmtItem :=
  match response with
  | [] => Except.error ⟨chars "Id not found"⟩
  | item :: rest => if item.id = id then Except.ok item else _item rest id

/-- A credential storage collaborator: either the file-backed Storage built
from a path, or a caller-supplied storage object. -/
inductive Storage : Type
  | file : Str → Storage
  | supplied : Nat → Storage
deriving DecidableEq

/-- GOOGLE_API_SCOPE (src/gapy/client.py line 10). -/
def GOOGLE_API_SCOPE : Str := chars "https://www.googleapis.com/auth/analytics"

/-- GOOGLE_API_SCOPE_READONLY (src/gapy/client.py line 11). -/
def GOOGLE_API_SCOPE_READONLY : Str := chars "https://www.googleapis.com/auth/analytics.readonly"

/-- Python truthiness of an optional string: None and the empty string are
falsy. -/
def truthyStr (v : Option Str) : Bool :=
  match v with
  | Option.none => false
  | Option.some s => !s.isEmpty

/-- _get_storage (src/gapy/client.py lines 15-21): require a storage object
or a storage path, building file storage from the path. -/
def _get_storage (storage : Option Storage) (storage_path : Option Str) :
    Except GapyError Storage :=
  match storage with
  | Option.some s => Except.ok s
  | Option.none =>
    match storage_path with
    | Option.some p =>
      if p.isEmpty then
        Except.error ⟨chars "Must provide either a storage object or a storage_path"⟩
      else Except.ok (Storage.file p)
    | Option.none =>
      Except.error ⟨chars "Must provide either a storage object or a storage_path"⟩

/-- What from_private_key goes on to build once its arguments validate: the
credential and service construction (SignedJwtAssertionCredentials and
_build) are external network-facing collaborators, so reaching an ok value
is the point at which the code proceeds beyond local validation. -/
structure ClientSpec : Type where
  account_name : Str
  private_key : Str
  scope : Str
  storage : Storage
deriving DecidableEq

/-- from_private_key (src/gapy/client.py lines 24-59), with the filesystem
supplied as a function from paths to file contents: validate that a private
key or a key path is present (reading the key from the path when needed),
then obtain storage via _get_storage, then build the client. -/
def from_private_key (fs : Str → Str) (account_name : Str)
    (private_key : Option Str) (private_key_path : Option Str)
    (storage : Option Storage) (storage_path : Option Str)
    (readonly : Bool) : Except GapyError ClientSpec :=
  match (if truthyStr private_key then Except.ok (private_key.getD [])
         else if truthyStr private_key_path then Except.ok (fs (private_key_path.getD []))
         else Except.error
           (⟨chars "Must provide either a private_key or a private_key_file"⟩ : GapyError) :
         Except GapyError Str) with
  | Except.error e => Except.error e
  | Except.ok key =>
    match _get_storage storage storage_path with
    | Except.error e => Except.error e
    | Except.ok st =>
      Except.ok
        { account_name := account_name
          private_key := key
          scope := if readonly then GOOGLE_API_SCOPE_READONLY else GOOGLE_API_SCOPE
          storage := st }

/-- What from_secrets_file goes on to build once storage validates; the
OAuth flow and credential run are external collaborators. -/
structure SecretsSpec : Type where
  client_secrets : Str
  scope : Str
  storage : Storage
deriving DecidableEq

/-- from_secrets_file (src/gapy/client.py lines 62-89): compute the scope,
create the flow from the secrets file (external, no local validation), then
obtain storage via _get_storage before any credential network traffic. -/
def from_secrets_file (client_secrets : Str) (storage : Option Storage)
    (storage_path : Option Str) (readonly : Bool) : Except GapyError SecretsSpec :=
  match _get_storage storage storage_path with
  | Except.error e => Except.error e
  | Except.ok st =>
    Except.ok
      { client_secrets := client_secrets
        scope := if readonly then GOOGLE_API_SCOPE_READONLY else GOOGLE_API_SCOPE
        storage := st }

/-- Modelled from the spec: gapy/response.py is not under src/, so the Query
Response pagination is taken from spec sections 4.2 and 8 — the backend
applies the server-defined ordering before paging, and a page is the slice
of the full ordered result set beginning at the 1-based start index and
bounded by max results. -/
def pageRows {α : Type} (total : List α) (start_index : Nat) (max_results : Nat) :
    List α :=
  (total.drop (start_index - 1)).take max_results

/-- Modelled from the spec: the continuation exposed by a Query Response
re-issues the query with the original parameter set and the start index
advanced past the rows already returned (spec sections 4.2 and glossary,
"Continuation"). -/
def nextStartIndex (start_index : Nat) (returned : Nat) : Nat :=
  start_index + returned

/-! Helper lemmas about isPrefixOf on the character-list string model. -/

theorem isPrefixOf_append_self (l t : Str) : l.isPrefixOf (l ++ t) = true := by
  induction l with
  | nil => simp
  | cons a as ih => simp [List.isPrefixOf_cons₂, ih]

theorem cons_isPrefixOf_cons_ne (a b : Char) (as bs : Str) (h : a ≠ b) :
    (a :: as).isPrefixOf (b :: bs) = false := by
  have hb : (a == b) = false := beq_false_of_ne h
  simp [List.isPrefixOf_cons₂, hb]

theorem head_eq_of_cons_isPrefixOf (a : Char) (l s : Str)
    (h : (a :: l).isPrefixOf s = true) : ∃ t, s = a :: t ∧ l.isPrefixOf t = true := by
  cases s with
  | nil => simp at h
  | cons b bs =>
    rw [List.isPrefixOf_cons₂, Bool.and_eq_true, beq_iff_eq] at h
    exact ⟨bs, by rw [h.1], h.2⟩

/-- Core case analysis of _prefixer for a namespace token whose first
character is not the minus sign (both "ga:" and "mcf:" qualify). -/
theorem prefixer_cases (c : Char) (t : Str) (hc : c ≠ '-') (s : Str) :
    ((c :: t).isPrefixOf s = true → _prefixer s (c :: t) = s) ∧
    (('-' :: c :: t).isPrefixOf s = true → _prefixer s (c :: t) = s) ∧
    (('-' :: c :: t).isPrefixOf s = false → ['-'].isPrefixOf s = true →
      _prefixer s (c :: t) = '-' :: ((c :: t) ++ s.drop 1)) ∧
    ((c :: t).isPrefixOf s = false → ['-'].isPrefixOf s = false →
      _prefixer s (c :: t) = (c :: t) ++ s) := by
  refine ⟨fun h1 => by simp [_prefixer, h1], fun h2 => ?_, fun h2 h3 => ?_, fun h1 h3 => ?_⟩
  · obtain ⟨u, hu, _⟩ := head_eq_of_cons_isPrefixOf '-' (c :: t) s h2
    have h1 : (c :: t).isPrefixOf s = false := by
      rw [hu]; exact cons_isPrefixOf_cons_ne c '-' t u hc
    simp [_prefixer, h1, h2]
  · obtain ⟨u, hu, _⟩ := head_eq_of_cons_isPrefixOf '-' [] s h3
    have h1 : (c :: t).isPrefixOf s = false := by
      rw [hu]; exact cons_isPrefixOf_cons_ne c '-' t u hc
    simp [_prefixer, h1, h2, h3]
  · have h2 : ('-' :: c :: t).isPrefixOf s = false := by
      cases e : ('-' :: c :: t).isPrefixOf s with
      | false => rfl
      | true =>
        obtain ⟨u, hu, _⟩ := head_eq_of_cons_isPrefixOf '-' (c :: t) s e
        rw [hu] at h3
        simp [List.isPrefixOf_cons₂] at h3
    simp [_prefixer, h1, h2, h3]

/-- Idempotence of _prefixer for a namespace token whose first character is
not the minus sign. -/
theorem prefixer_idem_aux (c : Char) (t : Str) (hc : c ≠ '-') (s : Str) :
    _prefixer (_prefixer s (c :: t)) (c :: t) = _prefixer s (c :: t) := by
  by_cases h1 : (c :: t).isPrefixOf s = true
  · rw [(prefixer_cases c t hc s).1 h1]
    exact (prefixer_cases c t hc s).1 h1
  · rw [Bool.not_eq_true] at h1
    by_cases h2 : ('-' :: c :: t).isPrefixOf s = true
    · rw [(prefixer_cases c t hc s).2.1 h2]
      exact (prefixer_cases c t hc s).2.1 h2
    · rw [Bool.not_eq_true] at h2
      by_cases h3 : ['-'].isPrefixOf s = true
      · rw [(prefixer_cases c t hc s).2.2.1 h2 h3]
        have hr := (prefixer_cases c t hc ('-' :: ((c :: t) ++ s.drop 1))).2.1
        apply hr
        exact isPrefixOf_append_self ('-' :: c :: t) (s.drop 1)
      · rw [Bool.not_eq_true] at h3
        rw [(prefixer_cases c t hc s).2.2.2 h1 h3]
        exact (prefixer_cases c t hc ((c :: t) ++ s)).1 (isPrefixOf_append_self (c :: t) s)

/-- C3: _prefixer satisfies the documented four-case contract for the ga:
and mcf: namespace tokens — a value already carrying the namespace, or the
negated namespace, is returned unchanged; a bare-negated value becomes
minus, namespace, remainder; any other value is prefixed with the
namespace.  In particular a string starting with neither the namespace nor
a minus sign maps to namespace ++ value, and "-pageviews" with ga
prefixing maps to "-ga:pageviews". -/
theorem prefixer_four_case_contract (s ns : Str)
    (h : ns = chars "ga:" ∨ ns = chars "mcf:") :
    (ns.isPrefixOf s = true → _prefixer s ns = s) ∧
    (('-' :: ns).isPrefixOf s = true → _prefixer s ns = s) ∧
    (('-' :: ns).isPrefixOf s = false → ['-'].isPrefixOf s = true →
      _prefixer s ns = '-' :: (ns ++ s.drop 1)) ∧
    (ns.isPrefixOf s = false → ['-'].isPrefixOf s = false →
      _prefixer s ns = ns ++ s) ∧
    _prefixer (chars "-pageviews") (chars "ga:") = chars "-ga:pageviews" := by
  have hlast : _prefixer (chars "-pageviews") (chars "ga:") = chars "-ga:pageviews" := by
    decide
  rcases h with h | h <;> subst h
  · have hg : chars "ga:" = 'g' :: chars "a:" := rfl
    rw [hg]
    have := prefixer_cases 'g' (chars "a:") (by decide) s
    exact ⟨this.1, this.2.1, this.2.2.1, this.2.2.2, hlast⟩
  · have hm : chars "mcf:" = 'm' :: chars "cf:" := rfl
    rw [hm]
    have := prefixer_cases 'm' (chars "cf:") (by decide) s
    exact ⟨this.1, this.2.1, this.2.2.1, this.2.2.2, hlast⟩

/-- Witness for C3: "pageviews" starts with neither "ga:" nor a minus, and
the contract yields _prefixer "pageviews" "ga:" = "ga:pageviews". -/
theorem prefixer_four_case_contract_witness :
    _prefixer (chars "pageviews") (chars "ga:") = chars "ga:pageviews" := by
  have h := (prefixer_four_case_contract (chars "pageviews") (chars "ga:")
    (Or.inl rfl)).2.2.2.1 (by decide) (by decide)
  rw [h]
  decide

/-- C4: _prefixer is idempotent for the ga: and mcf: namespace tokens —
applying it twice yields the same result as applying it once, so every
string already in prefixed or prefixed-negated form is a fixed point. -/
theorem prefixer_idempotent (s ns : Str)
    (h : ns = chars "ga:" ∨ ns = chars "mcf:") :
    _prefixer (_prefixer s ns) ns = _prefixer s ns := by
  rcases h with h | h <;> subst h
  · have hg : chars "ga:" = 'g' :: chars "a:" := rfl
    rw [hg]
    exact prefixer_idem_aux 'g' (chars "a:") (by decide) s
  · have hm : chars "mcf:" = 'm' :: chars "cf:" := rfl
    rw [hm]
    exact prefixer_idem_aux 'm' (chars "cf:") (by decide) s

/-- Witness for C4: idempotence evaluated at the bare-negated input
"-pageviews" with the ga: namespace. -/
theorem prefixer_idempotent_witness :
    _prefixer (_prefixer (chars "-pageviews") (chars "ga:")) (chars "ga:")
      = _prefixer (chars "-pageviews") (chars "ga:") :=
  prefixer_idempotent (chars "-pageviews") (chars "ga:") (Or.inl rfl)

/-- C5: _to_list maps None to the empty list, a scalar to a one-element
list, and passes an existing list through unchanged, with no deduplication
and no reordering. -/
theorem to_list_contract :
    _to_list PyArg.none = [] ∧
    (∀ s : Str, _to_list (PyArg.str s) = [s]) ∧
    (∀ l : List Str, _to_list (PyArg.list l) = l) :=
  ⟨rfl, fun _ => rfl, fun _ => rfl⟩


/-! Helper lemmas about lookup after key removal and None-stripping. -/

theorem lookup_cons_self (a : PKey) (v : PyVal) (rest : Kw) :
    ((a, v) :: rest).lookup a = some v := by
  rw [List.lookup_cons, beq_self_eq_true]

theorem lookup_cons_ne (j a : PKey) (v : PyVal) (rest : Kw) (h : j ≠ a) :
    ((a, v) :: rest).lookup j = rest.lookup j := by
  rw [List.lookup_cons, beq_false_of_ne h]

theorem removeKey_cons_self (key : PKey) (v : PyVal) (rest : Kw) :
    removeKey ((key, v) :: rest) key = removeKey rest key := by
  simp [removeKey, List.filter_cons]

theorem removeKey_cons_ne (key a : PKey) (v : PyVal) (rest : Kw) (h : a ≠ key) :
    removeKey ((a, v) :: rest) key = (a, v) :: removeKey rest key := by
  simp [removeKey, List.filter_cons, h]

theorem lookup_removeKey_self (kwargs : Kw) (key : PKey) :
    (removeKey kwargs key).lookup key = none := by
  induction kwargs with
  | nil => rfl
  | cons p rest ih =>
    rcases p with ⟨a, v⟩
    by_cases h : a = key
    · subst h
      rw [removeKey_cons_self]
      exact ih
    · rw [removeKey_cons_ne key a v rest h,
        lookup_cons_ne key a v (removeKey rest key) (fun e => h e.symm)]
      exact ih

theorem lookup_removeKey_ne (kwargs : Kw) (key j : PKey) (h : j ≠ key) :
    (removeKey kwargs key).lookup j = kwargs.lookup j := by
  induction kwargs with
  | nil => rfl
  | cons p rest ih =>
    rcases p with ⟨a, v⟩
    by_cases ha : a = key
    · subst ha
      rw [removeKey_cons_self, ih, lookup_cons_ne j a v rest h]
    · rw [removeKey_cons_ne key a v rest ha]
      by_cases hj : j = a
      · subst hj
        rw [lookup_cons_self, lookup_cons_self]
      · rw [lookup_cons_ne j a v (removeKey rest key) hj,
          lookup_cons_ne j a v rest hj]
        exact ih

theorem lookup_filter_empty_ne (kwargs : Kw) (key j : PKey) (h : j ≠ key) :
    (_filter_empty kwargs key).lookup j = kwargs.lookup j := by
  unfold _filter_empty
  by_cases hc : kwargs.lookup key = some PyVal.none
  · rw [if_pos hc]
    exact lookup_removeKey_ne kwargs key j h
  · rw [if_neg hc]

theorem lookup_filter_empty_of_none (kwargs : Kw) (key j : PKey)
    (h : kwargs.lookup j = none) : (_filter_empty kwargs key).lookup j = none := by
  by_cases hj : j = key
  · subst hj
    unfold _filter_empty
    by_cases hc : kwargs.lookup j = some PyVal.none
    · rw [if_pos hc]
      exact lookup_removeKey_self kwargs j
    · rw [if_neg hc]
      exact h
  · rw [lookup_filter_empty_ne kwargs key j hj]
    exact h

theorem lookup_filter_empty_of_some (kwargs : Kw) (key j : PKey) (v : PyVal)
    (hv : v ≠ PyVal.none) (h : kwargs.lookup j = some v) :
    (_filter_empty kwargs key).lookup j = some v := by
  by_cases hj : j = key
  · subst hj
    unfold _filter_empty
    rw [h]
    have hne : ¬ (some v = some PyVal.none) := fun e => hv (Option.some.inj e)
    rw [if_neg hne]
    exact h
  · rw [lookup_filter_empty_ne kwargs key j hj]
    exact h

theorem lookup_foldl_of_none (keys : List PKey) (kwargs : Kw) (j : PKey)
    (h : kwargs.lookup j = none) :
    (keys.foldl _filter_empty kwargs).lookup j = none := by
  induction keys generalizing kwargs with
  | nil => exact h
  | cons k rest ih =>
    rw [List.foldl_cons]
    exact ih (_filter_empty kwargs k) (lookup_filter_empty_of_none kwargs k j h)

theorem lookup_foldl_not_mem (keys : List PKey) (kwargs : Kw) (j : PKey)
    (h : j ∉ keys) :
    (keys.foldl _filter_empty kwargs).lookup j = kwargs.lookup j := by
  induction keys generalizing kwargs with
  | nil => rfl
  | cons k rest ih =>
    rw [List.foldl_cons]
    have hjk : j ≠ k := fun e => h (e ▸ List.mem_cons_self k rest)
    rw [ih (_filter_empty kwargs k) (fun hm => h (List.mem_cons_of_mem k hm))]
    exact lookup_filter_empty_ne kwargs k j hjk

theorem lookup_foldl_of_some (keys : List PKey) (kwargs : Kw) (j : PKey)
    (v : PyVal) (hv : v ≠ PyVal.none) (h : kwargs.lookup j = some v) :
    (keys.foldl _filter_empty kwargs).lookup j = some v := by
  induction keys generalizing kwargs with
  | nil => exact h
  | cons k rest ih =>
    rw [List.foldl_cons]
    exact ih (_filter_empty kwargs k) (lookup_filter_empty_of_some kwargs k j v hv h)

theorem lookup_foldl_mem_none (keys : List PKey) (kwargs : Kw) (j : PKey) :
    j ∈ keys → kwargs.lookup j = some PyVal.none →
    (keys.foldl _filter_empty kwargs).lookup j = none := by
  induction keys generalizing kwargs with
  | nil =>
    intro hmem _
    cases hmem
  | cons k rest ih =>
    intro hmem h
    rw [List.foldl_cons]
    by_cases hjk : j = k
    · subst hjk
      have hstep : (_filter_empty kwargs j).lookup j = none := by
        unfold _filter_empty
        rw [h, if_pos rfl]
        exact lookup_removeKey_self kwargs j
      exact lookup_foldl_of_none rest (_filter_empty kwargs j) j hstep
    · have hmem' : j ∈ rest := by
        cases hmem with
        | head => exact absurd rfl hjk
        | tail _ hm => exact hm
      have hstep : (_filter_empty kwargs k).lookup j = some PyVal.none := by
        rw [lookup_filter_empty_ne kwargs k j hjk]
        exact h
      exact ih (_filter_empty kwargs k) hmem' hstep

/-- C2: in every query built by the shared algorithm, each of dimensions,
filters and sort whose normalized list joins to the empty string (in
particular a None argument), and max_results and segment when None, is
omitted from the parameter mapping passed to the external execute call;
the metrics parameter carries the namespaced joined string. -/
theorem optional_params_omitted {α : Type} (ga_hook : Kw → α)
    (prefixer : List Str → Str) (mcf : Bool) (ids : PyArg)
    (start_date end_date : Date) (metrics dimensions filters : PyArg)
    (max_results : PyVal) (sort : PyArg) (segment : PyVal)
    (hpf : prefixer = _to_ga_param ∨ prefixer = _to_mcf_param) :
    let r := _get ga_hook prefixer mcf ids start_date end_date metrics
      dimensions filters max_results sort segment
    (prefixer (_to_list dimensions) = [] →
      r.params.lookup PKey.dimensions = none) ∧
    (dimensions = PyArg.none → r.params.lookup PKey.dimensions = none) ∧
    (prefixer (_to_list filters) = [] → r.params.lookup PKey.filters = none) ∧
    (prefixer (_to_list sort) = [] → r.params.lookup PKey.sort = none) ∧
    (max_results = PyVal.none → r.params.lookup PKey.max_results = none) ∧
    (segment = PyVal.none → r.params.lookup PKey.segment = none) ∧
    r.params.lookup PKey.metrics
      = some (PyVal.str (prefixer (_to_list metrics))) := by
  intro r
  have hpf_nil : prefixer [] = [] := by
    rcases hpf with h | h <;> subst h <;> rfl
  have hdim : ∀ hd : prefixer (_to_list dimensions) = [],
      r.params.lookup PKey.dimensions = none := by
    intro hd
    apply lookup_foldl_mem_none stripKeys _ PKey.dimensions (by decide)
    have : List.lookup PKey.dimensions
        [(PKey.ids, PyVal.str (_to_ga_param (_to_list ids))),
         (PKey.start_date, PyVal.str (strftimeYMD start_date)),
         (PKey.end_date, PyVal.str (strftimeYMD end_date)),
         (PKey.metrics, PyVal.str (prefixer (_to_list metrics))),
         (PKey.dimensions, strOrNone (prefixer (_to_list dimensions))),
         (PKey.filters, strOrNone (prefixer (_to_list filters))),
         (PKey.sort, strOrNone (prefixer (_to_list sort))),
         (PKey.max_results, max_results),
         (PKey.segment, segment)]
        = some (strOrNone (prefixer (_to_list dimensions))) := rfl
    rw [this, hd]
    rfl
  have hfil : ∀ hd : prefixer (_to_list filters) = [],
      r.params.lookup PKey.filters = none := by
    intro hd
    apply lookup_foldl_mem_none stripKeys _ PKey.filters (by decide)
    show some (strOrNone (prefixer (_to_list filters))) = some PyVal.none
    rw [hd]
    rfl
  have hsort : ∀ hd : prefixer (_to_list sort) = [],
      r.params.lookup PKey.sort = none := by
    intro hd
    apply lookup_foldl_mem_none stripKeys _ PKey.sort (by decide)
    show some (strOrNone (prefixer (_to_list sort))) = some PyVal.none
    rw [hd]
    rfl
  refine ⟨hdim, ?_, hfil, hsort, ?_, ?_, ?_⟩
  · intro hd
    apply hdim
    rw [hd]
    exact hpf_nil
  · intro hm
    apply lookup_foldl_mem_none stripKeys _ PKey.max_results (by decide)
    show some max_results = some PyVal.none
    rw [hm]
  · intro hs
    apply lookup_foldl_mem_none stripKeys _ PKey.segment (by decide)
    show some segment = some PyVal.none
    rw [hs]
  · apply lookup_foldl_of_some stripKeys _ PKey.metrics _ (by intro h; cases h)
    rfl

/-- Witness for C2: metrics "pageviews" with dimensions None through the
ga entry point yields metrics "ga:pageviews" with the dimensions key absent
from the executed mapping. -/
theorem optional_params_omitted_witness :
    (_get (fun _ => PyVal.none) _to_ga_param false (PyArg.str (chars "123"))
        ⟨2013, 1, 1⟩ ⟨2013, 1, 31⟩ (PyArg.str (chars "pageviews")) PyArg.none
        PyArg.none PyVal.none PyArg.none PyVal.none).params.lookup
        PKey.dimensions = none ∧
    (_get (fun _ => PyVal.none) _to_ga_param false (PyArg.str (chars "123"))
        ⟨2013, 1, 1⟩ ⟨2013, 1, 31⟩ (PyArg.str (chars "pageviews")) PyArg.none
        PyArg.none PyVal.none PyArg.none PyVal.none).params.lookup
        PKey.metrics = some (PyVal.str (chars "ga:pageviews")) := by
  have h := optional_params_omitted (fun _ => PyVal.none) _to_ga_param false
    (PyArg.str (chars "123")) ⟨2013, 1, 1⟩ ⟨2013, 1, 31⟩
    (PyArg.str (chars "pageviews")) PyArg.none PyArg.none PyVal.none
    PyArg.none PyVal.none (Or.inl rfl)
  refine ⟨h.2.1 rfl, ?_⟩
  rw [h.2.2.2.2.2.2]
  decide

/-- C10: in every query built by the shared algorithm, the ids and metrics
keys are always present in the mapping passed to the external execute call
— carrying the (possibly empty) joined strings, never omitted — and the
None-stripping step leaves every key other than dimensions, filters, sort,
max_results and segment untouched.  An empty normalized input joins to the
empty string, which is sent as such. -/
theorem ids_metrics_always_sent {α : Type} (ga_hook : Kw → α)
    (prefixer : List Str → Str) (mcf : Bool) (ids : PyArg)
    (start_date end_date : Date) (metrics dimensions filters : PyArg)
    (max_results : PyVal) (sort : PyArg) (segment : PyVal) :
    let r := _get ga_hook prefixer mcf ids start_date end_date metrics
      dimensions filters max_results sort segment
    r.params.lookup PKey.ids
      = some (PyVal.str (_to_ga_param (_to_list ids))) ∧
    r.params.lookup PKey.metrics
      = some (PyVal.str (prefixer (_to_list metrics))) ∧
    _to_ga_param [] = ([] : Str) ∧
    (∀ (kwargs : Kw) (k : PKey), k ∉ stripKeys →
      (stripKeys.foldl _filter_empty kwargs).lookup k = kwargs.lookup k) := by
  intro r
  refine ⟨?_, ?_, rfl, fun kwargs k hk => lookup_foldl_not_mem stripKeys kwargs k hk⟩
  · exact lookup_foldl_not_mem stripKeys _ PKey.ids (by decide)
  · apply lookup_foldl_of_some stripKeys _ PKey.metrics _ (by intro h; cases h)
    rfl

/-- Witness for C10: with ids and metrics both normalizing to the empty
sequence, the executed mapping still carries both keys bound to the empty
string, and the start_date key (not a stripped key) survives stripping. -/
theorem ids_metrics_always_sent_witness :
    (_get (fun _ => PyVal.none) _to_ga_param false (PyArg.list [])
        ⟨2013, 1, 1⟩ ⟨2013, 1, 31⟩ (PyArg.list []) PyArg.none PyArg.none
        PyVal.none PyArg.none PyVal.none).params.lookup PKey.ids
      = some (PyVal.str []) ∧
    (_get (fun _ => PyVal.none) _to_ga_param false (PyArg.list [])
        ⟨2013, 1, 1⟩ ⟨2013, 1, 31⟩ (PyArg.list []) PyArg.none PyArg.none
        PyVal.none PyArg.none PyVal.none).params.lookup PKey.metrics
      = some (PyVal.str []) ∧
    (stripKeys.foldl _filter_empty
        [(PKey.start_date, PyVal.str (chars "2013-01-01"))]).lookup
        PKey.start_date = some (PyVal.str (chars "2013-01-01")) := by
  have h := ids_metrics_always_sent (fun _ => PyVal.none) _to_ga_param false
    (PyArg.list []) ⟨2013, 1, 1⟩ ⟨2013, 1, 31⟩ (PyArg.list []) PyArg.none
    PyArg.none PyVal.none PyArg.none PyVal.none
  refine ⟨h.1, h.2.1, ?_⟩
  rw [h.2.2.2 [(PKey.start_date, PyVal.str (chars "2013-01-01"))]
    PKey.start_date (by decide)]
  rfl

/-- C1 counterexample: a concrete query through get_mcf whose identifiers
parameter is assembled with the ga: prefix, not the mcf: prefix — refuting
the claim that all five assembled parameter strings use the mcf: prefix for
queries issued through get_mcf. -/
theorem mcf_ids_use_ga_prefix :
    (get_mcf (fun _ => PyVal.none) (PyArg.str (chars "123")) ⟨2013, 1, 1⟩
        ⟨2013, 1, 31⟩ (PyArg.str (chars "totalConversions")) PyArg.none
        PyArg.none PyVal.none PyArg.none PyVal.none).params.lookup PKey.ids
      = some (PyVal.str (chars "ga:123")) ∧
    (chars "mcf:").isPrefixOf (chars "ga:123") = false := by
  constructor
  · decide
  · decide

/-- C1 as amended: get_ga and get_mcf both delegate to the shared _get,
differing only in the endpoint flag and the prefixer supplied; the
assembled mapping handed to the instrumentation hook namespaces metrics,
dimensions, filters and sort with that entry point's prefixer, while the
identifiers string is always built with the ga: prefix, in both entry
points. -/
theorem entry_points_prefixing {α : Type} (ga_hook : Kw → α) (ids : PyArg)
    (start_date end_date : Date) (metrics dimensions filters : PyArg)
    (max_results : PyVal) (sort : PyArg) (segment : PyVal) :
    (get_mcf ga_hook ids start_date end_date metrics dimensions filters
        max_results sort segment
      = _get ga_hook _to_mcf_param true ids start_date end_date metrics
        dimensions filters max_results sort segment) ∧
    (get_ga ga_hook ids start_date end_date metrics dimensions filters
        max_results sort segment
      = _get ga_hook _to_ga_param false ids start_date end_date metrics
        dimensions filters max_results sort segment) ∧
    (get_mcf ga_hook ids start_date end_date metrics dimensions filters
        max_results sort segment).endpoint = Endpoint.mcf ∧
    (get_ga ga_hook ids start_date end_date metrics dimensions filters
        max_results sort segment).endpoint = Endpoint.ga ∧
    (get_mcf ga_hook ids start_date end_date metrics dimensions filters
        max_results sort segment).hookArgs
      = [[(PKey.ids, PyVal.str (_to_ga_param (_to_list ids))),
          (PKey.start_date, PyVal.str (strftimeYMD start_date)),
          (PKey.end_date, PyVal.str (strftimeYMD end_date)),
          (PKey.metrics, PyVal.str (_to_mcf_param (_to_list metrics))),
          (PKey.dimensions, strOrNone (_to_mcf_param (_to_list dimensions))),
          (PKey.filters, strOrNone (_to_mcf_param (_to_list filters))),
          (PKey.sort, strOrNone (_to_mcf_param (_to_list sort))),
          (PKey.max_results, max_results),
          (PKey.segment, segment)]] ∧
    (get_ga ga_hook ids start_date end_date metrics dimensions filters
        max_results sort segment).hookArgs
      = [[(PKey.ids, PyVal.str (_to_ga_param (_to_list ids))),
          (PKey.start_date, PyVal.str (strftimeYMD start_date)),
          (PKey.end_date, PyVal.str (strftimeYMD end_date)),
          (PKey.metrics, PyVal.str (_to_ga_param (_to_list metrics))),
          (PKey.dimensions, strOrNone (_to_ga_param (_to_list dimensions))),
          (PKey.filters, strOrNone (_to_ga_param (_to_list filters))),
          (PKey.sort, strOrNone (_to_ga_param (_to_list sort))),
          (PKey.max_results, max_results),
          (PKey.segment, segment)]] :=
  ⟨rfl, rfl, rfl, rfl, rfl, rfl⟩

/-- C8: for every execution, the instrumentation hook is invoked exactly
once with the fully assembled (pre-stripping) parameter mapping; the
mapping passed to execute is the stripped one; the endpoint and executed
parameters are independent of the hook and of its return value; and the
hook defaults to a function returning None when none is supplied at
construction. -/
theorem hook_invocation_contract :
    (∀ (α : Type) (ga_hook : Kw → α) (mcf : Bool) (kwargs : Kw),
      (get_raw_response ga_hook mcf kwargs).hookArgs = [kwargs]) ∧
    (∀ (α : Type) (ga_hook : Kw → α) (mcf : Bool) (kwargs : Kw),
      (get_raw_response ga_hook mcf kwargs).params
        = stripKeys.foldl _filter_empty kwargs) ∧
    (∀ (α β : Type) (hook1 : Kw → α) (hook2 : Kw → β) (mcf : Bool) (kwargs : Kw),
      (get_raw_response hook1 mcf kwargs).params
          = (get_raw_response hook2 mcf kwargs).params ∧
        (get_raw_response hook1 mcf kwargs).endpoint
          = (get_raw_response hook2 mcf kwargs).endpoint) ∧
    (∀ kwargs : Kw, initHook Option.none kwargs = PyVal.none) :=
  ⟨fun _ _ _ _ => rfl, fun _ _ _ _ => rfl, fun _ _ _ _ _ _ => ⟨rfl, rfl⟩,
    fun _ => rfl⟩

/-- C6: the management lookup by id returns the first item whose "id" field
equals the given id when one is present — never a non-matching item — and
fails with GapyError("Id not found") when no item in the listing matches.
account, webproperty and profile all delegate to this scan
(src/gapy/client.py lines 125-139). -/
theorem item_lookup_contract (listing : List MgmtItem) (id : Str) :
    (∀ it : MgmtItem, _item listing id = Except.ok it →
      it.id = id ∧ it ∈ listing) ∧
    ((∃ it : MgmtItem, it ∈ listing ∧ it.id = id) →
      ∃ it : MgmtItem, _item listing id = Except.ok it ∧ it.id = id) ∧
    ((∀ it : MgmtItem, it ∈ listing → it.id ≠ id) →
      _item listing id = Except.error ⟨chars "Id not found"⟩) := by
  induction listing with
  | nil =>
    refine ⟨fun it h => ?_, fun h => ?_, fun _ => rfl⟩
    · cases h
    · obtain ⟨it, hmem, _⟩ := h
      cases hmem
  | cons hd tl ih =>
    by_cases hh : hd.id = id
    · refine ⟨fun it h => ?_, fun _ => ?_, fun hall => ?_⟩
      · rw [show _item (hd :: tl) id = Except.ok hd by simp [_item, hh]] at h
        cases h
        exact ⟨hh, List.mem_cons_self hd tl⟩
      · exact ⟨hd, by simp [_item, hh], hh⟩
      · exact absurd hh (hall hd (List.mem_cons_self hd tl))
    · have hstep : _item (hd :: tl) id = _item tl id := by simp [_item, hh]
      refine ⟨fun it h => ?_, fun h => ?_, fun hall => ?_⟩
      · rw [hstep] at h
        obtain ⟨h1, h2⟩ := ih.1 it h
        exact ⟨h1, List.mem_cons_of_mem hd h2⟩
      · rw [hstep]
        obtain ⟨it, hmem, hid⟩ := h
        apply ih.2.1
        refine ⟨it, ?_, hid⟩
        cases hmem with
        | head => exact absurd hid hh
        | tail _ hm => exact hm
      · rw [hstep]
        exact ih.2.2 (fun it hm => hall it (List.mem_cons_of_mem hd hm))

/-- Witness for C6: on a two-item listing the scan finds the item with the
requested id, and an absent id raises GapyError("Id not found"). -/
theorem item_lookup_contract_witness :
    (∃ it : MgmtItem,
      _item [⟨chars "12345", []⟩, ⟨chars "67890", []⟩] (chars "67890")
          = Except.ok it ∧ it.id = chars "67890") ∧
    _item [⟨chars "12345", []⟩, ⟨chars "67890", []⟩] (chars "00000")
      = Except.error ⟨chars "Id not found"⟩ := by
  constructor
  · exact (item_lookup_contract [⟨chars "12345", []⟩, ⟨chars "67890", []⟩]
      (chars "67890")).2.1 ⟨⟨chars "67890", []⟩, by decide, by decide⟩
  · exact (item_lookup_contract [⟨chars "12345", []⟩, ⟨chars "67890", []⟩]
      (chars "00000")).2.2 (by decide)

/-- C7: construction fails fast with a GapyError before the external
credential and service objects are ever built — from_private_key when
neither a private key nor a private key path is supplied, and both
construction paths when neither a storage object nor a storage path is
supplied.  In the embedding, reaching an ok ClientSpec/SecretsSpec is the
point at which network-facing construction would begin, so an error result
is raised strictly before any network attempt. -/
theorem construction_fails_fast :
    (∀ (fs : Str → Str) (account_name : Str) (storage : Option Storage)
        (storage_path : Option Str) (readonly : Bool),
      from_private_key fs account_name Option.none Option.none storage
          storage_path readonly
        = Except.error
            ⟨chars "Must provide either a private_key or a private_key_file"⟩) ∧
    (∀ (fs : Str → Str) (account_name : Str) (c : Char) (key_rest : Str)
        (private_key_path : Option Str) (readonly : Bool),
      from_private_key fs account_name (Option.some (c :: key_rest))
          private_key_path Option.none Option.none readonly
        = Except.error
            ⟨chars "Must provide either a storage object or a storage_path"⟩) ∧
    (_get_storage Option.none Option.none
      = Except.error
          ⟨chars "Must provide either a storage object or a storage_path"⟩) ∧
    (∀ (client_secrets : Str) (readonly : Bool),
      from_secrets_file client_secrets Option.none Option.none readonly
        = Except.error
            ⟨chars "Must provide either a storage object or a storage_path"⟩) :=
  ⟨fun _ _ _ _ _ => rfl, fun _ _ _ _ _ _ => rfl, rfl, fun _ _ => rfl⟩

/-- C9: spec-modelled pagination (gapy/response.py is not under src/) — a
page whose backend payload indicates more rows exist than were returned
exposes a continuation that re-issues the query with the start index
advanced past the returned rows; the first page concatenated with the
continuation's page is exactly the contiguous slice of the server-ordered
result set, so sequential iteration neither duplicates nor skips rows and
preserves the server-defined ordering. -/
theorem pagination_no_overlap_no_gap {α : Type} (total : List α)
    (start_index max_results : Nat) (hstart : 1 ≤ start_index)
    (hmore : start_index - 1 + (pageRows total start_index max_results).length
      < total.length) :
    pageRows total start_index max_results
        ++ pageRows total
          (nextStartIndex start_index
            (pageRows total start_index max_results).length) max_results
      = (total.drop (start_index - 1)).take
          ((pageRows total start_index max_results).length + max_results) := by
  unfold pageRows at hmore
  unfold pageRows nextStartIndex
  have hlen : ((total.drop (start_index - 1)).take max_results).length
      = max_results := by
    rw [List.length_take, List.length_drop]
    rw [List.length_take, List.length_drop] at hmore
    omega
  rw [hlen]
  have hoff : start_index + max_results - 1 = start_index - 1 + max_results := by
    omega
  rw [hoff]
  have hdrop : total.drop (start_index - 1 + max_results)
      = (total.drop (start_index - 1)).drop max_results := by
    rw [List.drop_drop]
  rw [hdrop]
  exact (List.take_add (total.drop (start_index - 1)) max_results max_results).symm

/-- Witness for C9: a five-row backend table paged two rows at a time from
start index 1 — the first two pages concatenate to the first four rows. -/
theorem pagination_no_overlap_no_gap_witness :
    pageRows [10, 20, 30, 40, 50] 1 2
        ++ pageRows [10, 20, 30, 40, 50]
          (nextStartIndex 1 (pageRows [10, 20, 30, 40, 50] 1 2).length) 2
      = (List.drop 0 [10, 20, 30, 40, 50]).take
          ((pageRows [10, 20, 30, 40, 50] 1 2).length + 2) :=
  pagination_no_overlap_no_gap [10, 20, 30, 40, 50] 1 2 (by decide) (by decide)
